import Mathlib

/-!
Verification of the etdh-hackaton drone mission backend.

Shallow embedding of the Python source:

* `backend/adk_agent/tools.py` — geometry utilities (`calculate_distance_haversine`,
  `calculate_flight_time`, `create_mission_playbook`); Python floats are modelled
  as real numbers.
* `backend/adk_agent/config.py` — the `SAFETY_CONSTRAINTS` table.
* `backend/olympe_translator/translator.py` — `PlaybookValidator.validate`;
  its numeric fields are modelled as rationals, since the validator only
  compares them.
* `backend/drone_controller/controller.py` — `DroneController.execute_mission`,
  with the external drone connection and `translate_and_execute` passed in as
  oracle arguments.
* `backend/api/main_demo_realistic.py` — the `RealisticDroneSimulator` state
  machine and the `/ws/mission/{mission_id}` telemetry loop.  The nested
  mutable `position` dictionary is modelled with an explicit address into a
  heap, so that the reference semantics of Python's shallow `dict.copy()` in
  `get_state` is captured faithfully.
-/

/-! ## Geometry utilities (`backend/adk_agent/tools.py`) -/

/-- `math.radians`: degrees to radians, `x * pi / 180`. -/
noncomputable def radians (x : ℝ) : ℝ := x * Real.pi / 180

/-- `math.degrees`: radians to degrees, `x * 180 / pi`. -/
noncomputable def degrees (x : ℝ) : ℝ := x * 180 / Real.pi

/-- `math.atan2 y x` over the reals (the IEEE signed-zero special cases of the
float version cannot arise in this model). -/
noncomputable def atan2 (y x : ℝ) : ℝ :=
  if 0 < x then Real.arctan (y / x)
  else if x < 0 then
    (if 0 ≤ y then Real.arctan (y / x) + Real.pi
     else Real.arctan (y / x) - Real.pi)
  else if 0 < y then Real.pi / 2
  else if y < 0 then -(Real.pi / 2)
  else 0

/-- `tools.calculate_distance_haversine(lat1, lon1, lat2, lon2)`: great-circle
distance in meters with mean Earth radius `R = 6371000`. -/
noncomputable def calculate_distance_haversine (lat1 lon1 lat2 lon2 : ℝ) : ℝ :=
  let R : ℝ := 6371000
  let lat1_rad := radians lat1
  let lat2_rad := radians lat2
  let dlat := radians (lat2 - lat1)
  let dlon := radians (lon2 - lon1)
  let a := Real.sin (dlat / 2) ^ 2 +
    Real.cos lat1_rad * Real.cos lat2_rad * Real.sin (dlon / 2) ^ 2
  let c := 2 * atan2 (Real.sqrt a) (Real.sqrt (1 - a))
  R * c

/-- A waypoint dictionary `{lat, lon, alt, action?, hover_duration_sec?}` as
passed around `tools.py` and the demo backend (`main_demo_realistic.Waypoint`).
Absent optional keys are `none`. -/
structure Waypoint where
  lat : ℝ
  lon : ℝ
  alt : ℝ
  action : Option String
  hover_duration_sec : Option ℝ

/-- Python truthiness of an optional string, as used in `if wp.get("action"):`
and `if action:`: `None` and the empty string are falsy. -/
def strTruthy : Option String → Bool
  | none => false
  | some s => !s.isEmpty

/-- Python `round(x, 1)`.  (CPython rounds ties to even; `round` here rounds
ties up.  The two agree away from exact midpoints, and no claim below
evaluates a midpoint.) -/
noncomputable def round1 (x : ℝ) : ℝ := (round (10 * x) : ℤ) / 10

/-- Python `round(x, 2)`. -/
noncomputable def round2 (x : ℝ) : ℝ := (round (100 * x) : ℤ) / 100

/-- The result dictionary of `tools.calculate_flight_time`. -/
structure FlightTimeResult where
  total_time_s : ℝ
  total_time_min : ℝ
  flight_time_s : ℝ
  action_time_s : ℝ
  takeoff_landing_time_s : ℝ
  speed_mps : ℝ

/-- The accumulation loop
`for i in range(len(waypoints) - 1): flight_time += dist(wp[i], wp[i+1]) / speed`. -/
noncomputable def flightTimeLoop (speed_mps : ℝ) : List Waypoint → ℝ
  | [] => 0
  | [_] => 0
  | a :: b :: rest =>
      calculate_distance_haversine a.lat a.lon b.lat b.lon / speed_mps +
        flightTimeLoop speed_mps (b :: rest)

/-- `tools.calculate_flight_time(waypoints, speed_mps, hover_time_per_action_s)`.
For the empty list the source returns a dictionary holding only the three zero
entries; the remaining fields are modelled as `0` / the given speed. -/
noncomputable def calculate_flight_time (waypoints : List Waypoint)
    (speed_mps : ℝ) (hover_time_per_action_s : ℝ) : FlightTimeResult :=
  match waypoints with
  | [] =>
    { total_time_s := 0, total_time_min := 0, flight_time_s := 0,
      action_time_s := 0, takeoff_landing_time_s := 0, speed_mps := speed_mps }
  | wp :: rest =>
    let flight_time := flightTimeLoop speed_mps (wp :: rest)
    let action_count : ℕ :=
      ((wp :: rest).filter fun w => strTruthy w.action).length
    let action_time := (action_count : ℝ) * hover_time_per_action_s
    let takeoff_landing_time : ℝ := 30
    let total_time := flight_time + action_time + takeoff_landing_time
    { total_time_s := round1 total_time
      total_time_min := round2 (total_time / 60)
      flight_time_s := round1 flight_time
      action_time_s := round1 action_time
      takeoff_landing_time_s := takeoff_landing_time
      speed_mps := speed_mps }

/-- Sum of consecutive-pair haversine distances over a waypoint list (the
"sum of consecutive-pair distances" of spec §4.2, written independently of the
source's accumulation loop). -/
noncomputable def sumConsecutiveDist (wps : List Waypoint) : ℝ :=
  ((wps.zip wps.tail).map fun p =>
    calculate_distance_haversine p.1.lat p.1.lon p.2.lat p.2.lon).sum

/-- Modelled from the spec (claim C7's reading of `estimate_duration_s`):
sum of consecutive-pair distances divided by speed, plus per-action overhead
where a hover action adds its explicit hover duration and other actions add
their explicit duration or a 5 s default, plus a fixed 30 s takeoff/landing
allowance. -/
noncomputable def estimate_duration_spec (wps : List Waypoint) (speed_mps : ℝ) : ℝ :=
  sumConsecutiveDist wps / speed_mps +
    (wps.map fun wp =>
      if strTruthy wp.action then wp.hover_duration_sec.getD 5 else 0).sum + 30

/-- The amended total-duration formula actually computed by
`calculate_flight_time`: every waypoint with a (truthy) action contributes the
uniform `hover_time_per_action_s`, irrespective of its explicit hover
duration. -/
noncomputable def estimate_total_amended (wps : List Waypoint)
    (speed_mps hover_time_per_action_s : ℝ) : ℝ :=
  sumConsecutiveDist wps / speed_mps +
    ((wps.filter fun wp => strTruthy wp.action).length : ℝ) *
      hover_time_per_action_s + 30

/-! ## Safety constraints (`backend/adk_agent/config.py`) -/

def SAFETY_max_altitude_m : ℝ := 120
def SAFETY_min_altitude_m : ℝ := 10
def SAFETY_max_speed_mps : ℝ := 15
def SAFETY_min_speed_mps : ℝ := 1
def SAFETY_max_mission_duration_min : ℝ := 60

/-! ## Playbook schema and validator
(`backend/playbook_parser/schema.py`, `backend/olympe_translator/translator.py`)

The validator only compares its numeric fields, so they are modelled as
rationals, keeping every definition computable and every concrete instance
decidable. -/

/-- `playbook_parser.schema.Waypoint`. -/
structure SchemaWaypoint where
  lat : ℚ
  lon : ℚ
  alt : ℚ
  action : Option String
  hover_duration_sec : Option ℚ
  deriving DecidableEq

/-- `playbook_parser.schema.FlightParameters`. -/
structure SchemaFlightParameters where
  altitude_m : ℚ
  speed_mps : ℚ
  pattern : String
  heading_mode : String
  deriving DecidableEq

/-- `playbook_parser.schema.MissionPlaybook` restricted to the fields read by
the validator and the controller (`camera_settings`, `contingencies` and
`area_of_interest` are passthrough data never read on these paths). -/
structure MissionPlaybook where
  mission_id : String
  mission_type : String
  description : String
  waypoints : List SchemaWaypoint
  flight_parameters : SchemaFlightParameters
  auto_execute : Bool
  max_duration_min : ℚ
  deriving DecidableEq

/-- Check 1 of `PlaybookValidator.validate`: the first waypoint whose altitude
is out of the mission-level safety band wins, ceiling before floor per
waypoint. -/
def checkWaypointAlts : List SchemaWaypoint → Option String
  | [] => none
  | wp :: rest =>
    if wp.alt > 150 then
      some ("Waypoint altitude " ++ toString wp.alt ++ "m exceeds max 150m")
    else if wp.alt < 10 then
      some ("Waypoint altitude " ++ toString wp.alt ++ "m below min 10m")
    else checkWaypointAlts rest

/-- `PlaybookValidator.validate(playbook) -> (is_valid, error_message)`. -/
def validate (playbook : MissionPlaybook) : Bool × Option String :=
  match checkWaypointAlts playbook.waypoints with
  | some msg => (false, some msg)
  | none =>
    if playbook.max_duration_min > 60 then
      (false, some "Mission duration exceeds 60 minutes")
    else if playbook.waypoints.length < 1 then
      (false, some "Mission must have at least one waypoint")
    else if playbook.flight_parameters.speed_mps > 15 then
      (false, some "Speed exceeds safe limit (15 m/s)")
    else (true, none)

/-- `needle` occurs as a contiguous substring of `msg`. -/
def mentions (needle msg : String) : Prop := needle.data <:+: msg.data

instance (needle msg : String) : Decidable (mentions needle msg) :=
  List.decidableInfix needle.data msg.data

/-! ## Drone controller (`backend/drone_controller/controller.py`) -/

/-- The mutable fields of `DroneController` touched by `execute_mission`. -/
structure ControllerState where
  current_mission : Option MissionPlaybook
  mission_status : String

/-- The result dictionary returned by `DroneController.execute_mission`. -/
inductive MissionOutcome where
  | validation_failed (error : Option String)
  | connection_failed
  | success (result : String)
  | execution_failed (error : String)

/-- `DroneController.execute_mission`.  The two external effects — the
connection attempt (`self.translator.connect()`) and the flight itself
(`self.translator.translate_and_execute`, which may raise) — are supplied as
oracle arguments `connect_ok` and `exec_result`. -/
def execute_mission (cs : ControllerState) (playbook : MissionPlaybook)
    (connect_ok : Bool) (exec_result : Except String String) :
    ControllerState × MissionOutcome :=
  let v := validate playbook
  if v.1 = false then (cs, MissionOutcome.validation_failed v.2)
  else if connect_ok = false then (cs, MissionOutcome.connection_failed)
  else
    match exec_result with
    | Except.ok r =>
      ({ current_mission := some playbook, mission_status := "completed" },
        MissionOutcome.success r)
    | Except.error e =>
      ({ current_mission := some playbook, mission_status := "failed" },
        MissionOutcome.execution_failed e)

/-! ## `tools.create_mission_playbook` -/

/-- An input waypoint dictionary of `create_mission_playbook`: the `alt`,
`action` and `hover_duration_sec` keys may be absent. -/
structure InWaypoint where
  lat : ℝ
  lon : ℝ
  alt : Option ℝ
  action : Option String
  hover_duration_sec : Option ℝ

/-- The `flight_parameters` object built by `create_mission_playbook`. -/
structure FlightParamsOut where
  altitude_m : ℝ
  speed_mps : ℝ
  pattern : String
  heading_mode : String

/-- The constant `camera_settings` object built by `create_mission_playbook`. -/
structure CameraSettingsOut where
  mode : String
  resolution : String
  gimbal_tilt : ℝ
  auto_capture_interval_sec : Option ℝ

/-- The constant `contingencies` object built by `create_mission_playbook`. -/
structure ContingenciesOut where
  low_battery : String
  gps_loss : String
  obstacle_detected : String
  communication_loss : String

/-- The playbook dictionary returned by `create_mission_playbook`. -/
structure PlaybookOut where
  mission_id : String
  mission_type : String
  description : String
  waypoints : List Waypoint
  flight_parameters : FlightParamsOut
  camera_settings : CameraSettingsOut
  contingencies : ContingenciesOut
  auto_execute : Bool
  max_duration_min : ℝ

/-- `tools.create_mission_playbook`.  The `ValueError` raised on an empty
waypoint list is modelled as `Except.error`; out-of-range `altitude_m` and
`speed_mps` are clamped into the `SAFETY_CONSTRAINTS` bounds. -/
noncomputable def create_mission_playbook (mission_id mission_type description : String)
    (waypoints : List InWaypoint) (altitude_m speed_mps : ℝ) (pattern : String) :
    Except String PlaybookOut :=
  match waypoints with
  | [] => Except.error "At least one waypoint is required"
  | w :: ws =>
    let altitude_m := max SAFETY_min_altitude_m (min altitude_m SAFETY_max_altitude_m)
    let speed_mps := max SAFETY_min_speed_mps (min speed_mps SAFETY_max_speed_mps)
    let formatted_waypoints := (w :: ws).map fun wp =>
      ({ lat := wp.lat, lon := wp.lon, alt := wp.alt.getD altitude_m,
         action := wp.action, hover_duration_sec := wp.hover_duration_sec } : Waypoint)
    let time_estimate := calculate_flight_time formatted_waypoints speed_mps 5
    Except.ok
      { mission_id := mission_id, mission_type := mission_type,
        description := description
        waypoints := formatted_waypoints
        flight_parameters :=
          { altitude_m := altitude_m, speed_mps := speed_mps,
            pattern := pattern, heading_mode := "auto" }
        camera_settings :=
          { mode := "photo", resolution := "4K", gimbal_tilt := -45,
            auto_capture_interval_sec := none }
        contingencies :=
          { low_battery := "return_to_home", gps_loss := "hover_and_alert",
            obstacle_detected := "reroute", communication_loss := "return_to_home" }
        auto_execute := false
        max_duration_min :=
          min (time_estimate.total_time_min * 1.5) SAFETY_max_mission_duration_min }

/-! ## The realistic demo simulator (`backend/api/main_demo_realistic.py`)

`RealisticDroneSimulator` keeps its mission state in a nested Python
dictionary `self.state`, whose `position` entry is itself a mutable dict.
`get_state` returns `self.state.copy()` — a *shallow* copy.  To capture this
reference structure the nested position dict lives in a heap `ℕ → Position`
addressed by `posAddr`; copying the top-level dict copies the address, and
in-place mutation of the position dict is an update of the heap at that
address. -/

/-- Flight phases.  The source stores them as strings
(`"idle", "takeoff", "en_route", "hovering", "landing", "completed"`);
`aborted` and `failed` are the further terminal phases named by the spec,
which the simulator never produces. -/
inductive Phase where
  | idle | takeoff | en_route | hovering | landing | completed | aborted | failed
  deriving DecidableEq

/-- The nested `position` dictionary `{lat, lon, alt}`. -/
structure Position where
  lat : ℝ
  lon : ℝ
  alt : ℝ

/-- The simulator's top-level `self.state` dict.  `posAddr` is the heap
address of the nested `position` dict.  `timestamp` (an ISO string of
`datetime.now()` in the source) is modelled as a tick counter. -/
structure StateDict where
  mission_id : Option String
  status : Phase
  posAddr : ℕ
  battery : ℝ
  speed : ℝ
  heading : ℝ
  current_waypoint : ℤ
  total_waypoints : ℕ
  gps_satellites : ℤ
  signal_strength : ℝ
  temperature : ℝ
  timestamp : ℕ

/-- The `flight_parameters` entry of a demo playbook dict: an arbitrary
dictionary of which only the `speed_mps` key is ever read. -/
structure DemoFlightParams where
  speed_mps : Option ℝ

/-- A playbook as received by the demo backend (`MissionPlaybook.dict()` of
`main_demo_realistic.py`); fields the simulator never reads
(`camera_settings`, `contingencies`, `auto_execute`) are omitted. -/
structure DemoPlaybook where
  mission_id : String
  mission_type : String
  description : String
  waypoints : List Waypoint
  flight_parameters : Option DemoFlightParams
  max_duration_min : ℝ

/-- The whole `RealisticDroneSimulator` object: the `state` dict, the heap
holding position dicts (`nextAddr` is the next fresh address), and the
instance attributes `current_mission` and `takeoff_altitude`. -/
structure Simulator where
  state : StateDict
  heap : ℕ → Position
  nextAddr : ℕ
  current_mission : Option DemoPlaybook
  takeoff_altitude : ℝ

/-- Per-tick environment: the `random.uniform(-2, 2)` and
`random.randint(-1, 1)` draws, which only feed the cosmetic `temperature` and
`gps_satellites` fields. -/
structure Env where
  randTemp : ℝ
  randSat : ℤ

/-- `RealisticDroneSimulator.__init__`. -/
noncomputable def initSim : Simulator :=
  { state :=
      { mission_id := none, status := Phase.idle, posAddr := 0,
        battery := 100, speed := 0, heading := 0,
        current_waypoint := -1, total_waypoints := 0,
        gps_satellites := 12, signal_strength := 100,
        temperature := 25, timestamp := 0 }
    heap := fun _ => { lat := 0, lon := 0, alt := 0 }
    nextAddr := 1
    current_mission := none
    takeoff_altitude := 0 }

/-- `RealisticDroneSimulator.start_mission(playbook)`.  With a non-empty
waypoint list the source rebinds `self.state["position"]` to a *fresh* dict
(allocated here at `nextAddr`) and sets `takeoff_altitude` from the first
waypoint (`first_wp.get("alt", 120)`; the `alt` key is always present in a
demo waypoint). -/
noncomputable def start_mission (playbook : DemoPlaybook) (sim : Simulator) : Simulator :=
  let st1 := { sim.state with
    mission_id := some playbook.mission_id
    status := Phase.takeoff
    total_waypoints := playbook.waypoints.length
    current_waypoint := -1 }
  match playbook.waypoints with
  | [] => { sim with state := st1, current_mission := some playbook }
  | first_wp :: _ =>
    { sim with
      state := { st1 with posAddr := sim.nextAddr }
      heap := Function.update sim.heap sim.nextAddr
        { lat := first_wp.lat, lon := first_wp.lon, alt := 0 }
      nextAddr := sim.nextAddr + 1
      current_mission := some playbook
      takeoff_altitude := first_wp.alt }

/-- `RealisticDroneSimulator.abort_mission()`: unconditionally forces the
`landing` phase and zeroes the speed (there is no not-running check and no
distinct `aborted` phase). -/
def abort_mission (sim : Simulator) : Simulator :=
  { sim with state := { sim.state with status := Phase.landing, speed := 0 } }

/-- `RealisticDroneSimulator.get_state()`: `self.state.copy()` — a shallow
copy.  The returned record shares `posAddr` with the live state. -/
def get_state (sim : Simulator) : StateDict := sim.state

/-- Dereference the nested `position` dict of a snapshot in the current
heap. -/
def readPos (sim : Simulator) (snap : StateDict) : Position := sim.heap snap.posAddr

/-- Fallback for an out-of-range waypoint list index (where CPython would
raise `IndexError`; unreachable on the executions considered below). -/
def dummyWaypoint : Waypoint :=
  { lat := 0, lon := 0, alt := 0, action := none, hover_duration_sec := none }

/-- Python float `a % b` (floored modulus), used for `heading % 360`. -/
noncomputable def pymod (a b : ℝ) : ℝ := a - b * (⌊a / b⌋ : ℤ)

/-- `RealisticDroneSimulator.simulate_step()`: one tick of the drone state
machine.  The early return on `idle` precedes the battery / temperature / GPS
bookkeeping; the `hovering` branch's `asyncio.sleep(hover_duration)` only
consumes wall-clock time and has no effect on the state. -/
noncomputable def simulate_step (e : Env) (sim : Simulator) : Simulator :=
  if sim.state.status = Phase.idle then sim
  else
    let st0 := sim.state
    -- battery drain: 0.15 when moving, else 0.05 (the `!= "idle"` guard is
    -- redundant after the early return above but kept from the source)
    let battery' :=
      if st0.status ≠ Phase.idle then
        max 0 (st0.battery - (if st0.speed > 0 then 0.15 else 0.05))
      else st0.battery
    let st1 : StateDict :=
      { st0 with
        timestamp := st0.timestamp + 1
        battery := battery'
        temperature := 25 + e.randTemp
        gps_satellites := max 8 (min 15 (st0.gps_satellites + e.randSat)) }
    let sim1 : Simulator := { sim with state := st1 }
    match st1.status with
    | Phase.takeoff =>
      let target_alt := sim.takeoff_altitude
      let pos := sim1.heap st1.posAddr
      if pos.alt < target_alt then
        { sim1 with
          heap := Function.update sim1.heap st1.posAddr
            { pos with alt := min target_alt (pos.alt + 2) }
          state := { st1 with speed := 2 } }
      else
        { sim1 with state :=
          { st1 with status := Phase.en_route, current_waypoint := 0, speed := 0 } }
    | Phase.en_route =>
      match sim1.current_mission with
      | none => { sim1 with state := { st1 with status := Phase.landing } }
      | some pb =>
        if (pb.waypoints.length : ℤ) ≤ st1.current_waypoint then
          { sim1 with state := { st1 with status := Phase.landing } }
        else
          let waypoint := pb.waypoints.getD st1.current_waypoint.toNat dummyWaypoint
          let pos := sim1.heap st1.posAddr
          let distance :=
            Real.sqrt ((waypoint.lat - pos.lat) ^ 2 + (waypoint.lon - pos.lon) ^ 2)
          if distance > 0.0001 then
            let speed_mps := (pb.flight_parameters.bind fun fp => fp.speed_mps).getD 10
            let move_distance := speed_mps * 0.00001
            let factor := min 1 (move_distance / distance)
            { sim1 with
              heap := Function.update sim1.heap st1.posAddr
                { lat := pos.lat + (waypoint.lat - pos.lat) * factor
                  lon := pos.lon + (waypoint.lon - pos.lon) * factor
                  alt := waypoint.alt }
              state := { st1 with
                heading := pymod
                  (degrees (atan2 (waypoint.lon - pos.lon) (waypoint.lat - pos.lat))) 360
                speed := speed_mps } }
          else
            if strTruthy waypoint.action then
              { sim1 with state := { st1 with status := Phase.hovering, speed := 0 } }
            else
              { sim1 with state :=
                { st1 with current_waypoint := st1.current_waypoint + 1 } }
    | Phase.hovering =>
      { sim1 with state :=
        { st1 with current_waypoint := st1.current_waypoint + 1,
                   status := Phase.en_route } }
    | Phase.landing =>
      let pos := sim1.heap st1.posAddr
      if pos.alt > 0 then
        { sim1 with
          heap := Function.update sim1.heap st1.posAddr
            { pos with alt := max 0 (pos.alt - 1) }
          state := { st1 with speed := 1 } }
      else
        { sim1 with state := { st1 with status := Phase.completed, speed := 0 } }
    | _ => sim1

/-- Iterate `simulate_step` over an environment stream. -/
noncomputable def stepRun (envs : ℕ → Env) : ℕ → Simulator → Simulator
  | 0, sim => sim
  | n + 1, sim => stepRun (fun i => envs (i + 1)) n (simulate_step (envs 0) sim)

/-! ## The websocket telemetry loop (`websocket_mission_updates`) -/

/-- The messages sent over the `/ws/mission/{mission_id}` websocket, with the
payload fields relevant to the claims. -/
inductive Msg where
  | connected
  | waypoint_reached (waypoint_index : ℤ) (total_waypoints : ℕ)
  | status_change (old_status : Option Phase) (new_status : Phase)
  | position_update
  | mission_complete
  | warning
  | emergency
  deriving DecidableEq

/-- The loop-local state of one websocket connection: the (globally shared)
simulator, the `previous_waypoint` / `previous_status` trackers, the messages
sent so far, the number of `abort_mission()` invocations made by this loop,
and whether the loop has hit its `break`. -/
structure LoopState where
  sim : Simulator
  prev_wp : ℤ
  prev_status : Option Phase
  msgs : List Msg
  abort_calls : ℕ
  finished : Bool

/-- Loop state right after the websocket is accepted and the initial
`connected` message is sent. -/
def wsInit (sim : Simulator) : LoopState :=
  { sim := sim, prev_wp := -1, prev_status := none,
    msgs := [Msg.connected], abort_calls := 0, finished := false }

/-- One iteration of the `while True` telemetry loop: step the simulator,
diff the snapshot against the trackers to emit `waypoint_reached` /
`status_change`, send `position_update`, then either `break` on completion
(before any battery check) or emit the battery warning / critical events —
the critical branch invokes `abort_mission()` every time it is taken. -/
noncomputable def wstick (e : Env) (ls : LoopState) : LoopState :=
  if ls.finished then ls
  else
    let sim := simulate_step e ls.sim
    let st := get_state sim
    let wpPair :=
      if st.current_waypoint ≠ ls.prev_wp ∧ 0 ≤ st.current_waypoint then
        (ls.msgs ++ [Msg.waypoint_reached st.current_waypoint st.total_waypoints],
          st.current_waypoint)
      else (ls.msgs, ls.prev_wp)
    let stPair :=
      if some st.status ≠ ls.prev_status then
        (wpPair.1 ++ [Msg.status_change ls.prev_status st.status], some st.status)
      else (wpPair.1, ls.prev_status)
    let msgs3 := stPair.1 ++ [Msg.position_update]
    if st.status = Phase.completed then
      { sim := sim, prev_wp := wpPair.2, prev_status := stPair.2,
        msgs := msgs3 ++ [Msg.mission_complete],
        abort_calls := ls.abort_calls, finished := true }
    else
      let msgs4 := if st.battery < 20 then msgs3 ++ [Msg.warning] else msgs3
      if st.battery < 10 then
        { sim := abort_mission sim, prev_wp := wpPair.2, prev_status := stPair.2,
          msgs := msgs4 ++ [Msg.emergency],
          abort_calls := ls.abort_calls + 1, finished := false }
      else
        { sim := sim, prev_wp := wpPair.2, prev_status := stPair.2,
          msgs := msgs4, abort_calls := ls.abort_calls, finished := false }

/-- Iterate the telemetry loop over an environment stream. -/
noncomputable def wsRun (envs : ℕ → Env) : ℕ → LoopState → LoopState
  | 0, ls => ls
  | n + 1, ls => wsRun (fun i => envs (i + 1)) n (wstick (envs 0) ls)

/-- The `waypoint_reached` indices contained in a message list, in order. -/
def wpIdx (msgs : List Msg) : List ℤ :=
  msgs.filterMap fun m =>
    match m with
    | Msg.waypoint_reached i _ => some i
    | _ => none

/-- `[0, 1, ..., n]` as integers. -/
def seqTo (n : ℕ) : List ℤ := (List.range (n + 1)).map fun i => (i : ℤ)

/-! ## Helper lemmas: validator -/

/-- If every waypoint's altitude lies in the safety band [10, 150], check 1 of
the validator passes. -/
theorem checkWaypointAlts_none {wps : List SchemaWaypoint}
    (h : ∀ w ∈ wps, 10 ≤ w.alt ∧ w.alt ≤ 150) : checkWaypointAlts wps = none := by
  induction wps with
  | nil => rfl
  | cons w rest ih =>
    have hw := h w (List.mem_cons_self w rest)
    simp only [checkWaypointAlts, if_neg (not_lt.mpr hw.2), if_neg (not_lt.mpr hw.1)]
    exact ih fun x hx => h x (List.mem_cons_of_mem _ hx)

/-- Check 1 stops at the first waypoint above the ceiling when every earlier
waypoint is inside the band. -/
theorem checkWaypointAlts_first {ws1 : List SchemaWaypoint} (wp : SchemaWaypoint)
    (ws2 : List SchemaWaypoint)
    (h1 : ∀ w ∈ ws1, 10 ≤ w.alt ∧ w.alt ≤ 150) (h2 : wp.alt > 150) :
    checkWaypointAlts (ws1 ++ wp :: ws2) =
      some ("Waypoint altitude " ++ toString wp.alt ++ "m exceeds max 150m") := by
  induction ws1 with
  | nil => simp only [List.nil_append, checkWaypointAlts, if_pos h2]
  | cons w rest ih =>
    have hw := h1 w (List.mem_cons_self w rest)
    simp only [List.cons_append, checkWaypointAlts, if_neg (not_lt.mpr hw.2),
      if_neg (not_lt.mpr hw.1)]
    exact ih fun x hx => h1 x (List.mem_cons_of_mem _ hx)

/-! ## Claims C2 and C3: the safety validator -/

/-- Claim C2: for every playbook whose waypoints all have altitude in
[10, 150], whose `max_duration_min` is at most 60, which has at least one
waypoint, and whose `flight_parameters.speed_mps` is at most 15,
`validate` returns ok with no reason string. -/
theorem C2_validate_ok (pb : MissionPlaybook)
    (halt : ∀ w ∈ pb.waypoints, 10 ≤ w.alt ∧ w.alt ≤ 150)
    (hdur : pb.max_duration_min ≤ 60)
    (hwp : pb.waypoints ≠ [])
    (hspeed : pb.flight_parameters.speed_mps ≤ 15) :
    validate pb = (true, none) := by
  have hlen : ¬ pb.waypoints.length < 1 := by
    have := List.length_pos.mpr hwp
    omega
  simp only [validate, checkWaypointAlts_none halt, if_neg (not_lt.mpr hdur),
    if_neg hlen, if_neg (not_lt.mpr hspeed)]

/-- A valid demo playbook used to witness claim C2. -/
def pbC2ok : MissionPlaybook :=
  { mission_id := "coastal_patrol_001", mission_type := "patrol",
    description := "demo",
    waypoints := [{ lat := 53.5, lon := 8.0, alt := 120,
                    action := some "photo", hover_duration_sec := none }],
    flight_parameters :=
      { altitude_m := 120, speed_mps := 10, pattern := "direct", heading_mode := "auto" },
    auto_execute := true, max_duration_min := 30 }

/-- Witness for claim C2 at a concrete valid playbook. -/
theorem C2_validate_ok_witness : validate pbC2ok = (true, none) :=
  C2_validate_ok pbC2ok (by decide) (by decide) (by decide) (by decide)

/-- Claim C3 (amended): validation fails with the reason of the first violated
rule; a waypoint with alt = 200 produces the "exceeds max 150m" message
provided every earlier waypoint is inside the altitude band, and
`speed_mps = 20` produces the "exceeds safe limit" message provided all
earlier checks pass. -/
theorem C3_first_violation :
    (∀ (pb : MissionPlaybook) (ws1 ws2 : List SchemaWaypoint) (wp : SchemaWaypoint),
      pb.waypoints = ws1 ++ wp :: ws2 →
      (∀ w ∈ ws1, 10 ≤ w.alt ∧ w.alt ≤ 150) →
      wp.alt = 200 →
      validate pb =
        (false, some ("Waypoint altitude " ++ toString (200 : ℚ) ++ "m exceeds max 150m")) ∧
      mentions "exceeds max 150m"
        ("Waypoint altitude " ++ toString (200 : ℚ) ++ "m exceeds max 150m")) ∧
    (∀ pb : MissionPlaybook,
      (∀ w ∈ pb.waypoints, 10 ≤ w.alt ∧ w.alt ≤ 150) →
      pb.max_duration_min ≤ 60 →
      pb.waypoints ≠ [] →
      pb.flight_parameters.speed_mps = 20 →
      validate pb = (false, some "Speed exceeds safe limit (15 m/s)") ∧
      mentions "exceeds safe limit" "Speed exceeds safe limit (15 m/s)") := by
  constructor
  · intro pb ws1 ws2 wp hsplit h1 h200
    have h2 : wp.alt > 150 := by rw [h200]; norm_num
    have hchk := checkWaypointAlts_first wp ws2 h1 h2
    rw [h200] at hchk
    refine ⟨?_, by decide⟩
    simp only [validate, hsplit, hchk]
  · intro pb halt hdur hwp hsp
    have hlen : ¬ pb.waypoints.length < 1 := by
      have := List.length_pos.mpr hwp
      omega
    refine ⟨?_, by decide⟩
    simp only [validate, checkWaypointAlts_none halt, if_neg (not_lt.mpr hdur),
      if_neg hlen, hsp]
    norm_num

/-- Waypoint whose altitude violates the mission floor. -/
def wpLow : SchemaWaypoint :=
  { lat := 53.5, lon := 8.0, alt := 5, action := none, hover_duration_sec := none }

/-- Waypoint whose altitude violates the mission ceiling. -/
def wpHigh : SchemaWaypoint :=
  { lat := 53.6, lon := 8.1, alt := 200, action := none, hover_duration_sec := none }

/-- Waypoint inside the altitude band. -/
def wpMid : SchemaWaypoint :=
  { lat := 53.55, lon := 8.05, alt := 50, action := none, hover_duration_sec := none }

/-- Playbook containing both a floor violation (first) and an alt-200 waypoint. -/
def pbBadBoth : MissionPlaybook :=
  { mission_id := "m_bad", mission_type := "patrol", description := "d",
    waypoints := [wpLow, wpHigh],
    flight_parameters :=
      { altitude_m := 120, speed_mps := 10, pattern := "direct", heading_mode := "auto" },
    auto_execute := true, max_duration_min := 30 }

/-- Counterexample to claim C3 as stated: this playbook has a waypoint with
alt = 200, yet `validate` reports the earlier floor violation, whose message
does not mention "exceeds max 150m". -/
theorem C3_counterexample :
    (∃ w ∈ pbBadBoth.waypoints, w.alt = 200) ∧
    validate pbBadBoth =
      (false, some ("Waypoint altitude " ++ toString (5 : ℚ) ++ "m below min 10m")) ∧
    ¬ mentions "exceeds max 150m"
      ("Waypoint altitude " ++ toString (5 : ℚ) ++ "m below min 10m") := by
  refine ⟨by decide, by decide, by decide⟩

/-- Playbook whose only violation is the alt-200 waypoint (in second
position). -/
def pbHighOnly : MissionPlaybook :=
  { mission_id := "m_high", mission_type := "patrol", description := "d",
    waypoints := [wpMid, wpHigh],
    flight_parameters :=
      { altitude_m := 120, speed_mps := 10, pattern := "direct", heading_mode := "auto" },
    auto_execute := true, max_duration_min := 30 }

/-- Playbook whose only violation is `speed_mps = 20`. -/
def pbSpeed20 : MissionPlaybook :=
  { mission_id := "m_speed", mission_type := "patrol", description := "d",
    waypoints := [wpMid],
    flight_parameters :=
      { altitude_m := 120, speed_mps := 20, pattern := "direct", heading_mode := "auto" },
    auto_execute := true, max_duration_min := 30 }

/-- Witness for claim C3 (amended) at concrete playbooks. -/
theorem C3_first_violation_witness :
    (validate pbHighOnly =
      (false, some ("Waypoint altitude " ++ toString (200 : ℚ) ++ "m exceeds max 150m")) ∧
     mentions "exceeds max 150m"
       ("Waypoint altitude " ++ toString (200 : ℚ) ++ "m exceeds max 150m")) ∧
    (validate pbSpeed20 = (false, some "Speed exceeds safe limit (15 m/s)") ∧
     mentions "exceeds safe limit" "Speed exceeds safe limit (15 m/s)") :=
  ⟨C3_first_violation.1 pbHighOnly [wpMid] [] wpHigh rfl (by decide) (by decide),
   C3_first_violation.2 pbSpeed20 (by decide) (by decide) (by decide) (by decide)⟩

/-! ## Claim C8: controller rejection paths do not mutate state -/

/-- Claim C8: when validation fails or the connection fails,
`execute_mission` returns the corresponding error with the controller state
exactly as before the call. -/
theorem C8_rejection_no_mutation (cs : ControllerState) (pb : MissionPlaybook)
    (c : Bool) (ex : Except String String) :
    ((validate pb).1 = false →
      execute_mission cs pb c ex = (cs, MissionOutcome.validation_failed (validate pb).2)) ∧
    ((validate pb).1 = true → c = false →
      execute_mission cs pb c ex = (cs, MissionOutcome.connection_failed)) := by
  constructor
  · intro h
    simp [execute_mission, h]
  · intro h hc
    simp [execute_mission, h, hc]

/-- An invalid playbook (ceiling violation) for the C8 witness. -/
def pbC8bad : MissionPlaybook :=
  { mission_id := "m_c8_bad", mission_type := "patrol", description := "d",
    waypoints := [{ lat := 0, lon := 0, alt := 200, action := none, hover_duration_sec := none }],
    flight_parameters :=
      { altitude_m := 120, speed_mps := 10, pattern := "direct", heading_mode := "auto" },
    auto_execute := true, max_duration_min := 30 }

/-- A valid playbook for the C8 witness. -/
def pbC8ok : MissionPlaybook :=
  { mission_id := "m_c8_ok", mission_type := "patrol", description := "d",
    waypoints := [{ lat := 0, lon := 0, alt := 50, action := none, hover_duration_sec := none }],
    flight_parameters :=
      { altitude_m := 120, speed_mps := 10, pattern := "direct", heading_mode := "auto" },
    auto_execute := true, max_duration_min := 30 }

/-- The controller state before the calls of the C8 witness. -/
def csIdle : ControllerState := { current_mission := none, mission_status := "idle" }

/-- Witness for claim C8 at concrete inputs. -/
theorem C8_rejection_no_mutation_witness :
    execute_mission csIdle pbC8bad true (Except.ok "r") =
      (csIdle, MissionOutcome.validation_failed (validate pbC8bad).2) ∧
    execute_mission csIdle pbC8ok false (Except.ok "r") =
      (csIdle, MissionOutcome.connection_failed) :=
  ⟨(C8_rejection_no_mutation csIdle pbC8bad true (Except.ok "r")).1 (by decide),
   (C8_rejection_no_mutation csIdle pbC8ok false (Except.ok "r")).2 (by decide) rfl⟩

/-! ## Claim C10: `create_mission_playbook` clamps flight parameters -/

/-- Claim C10: for every input with at least one waypoint,
`create_mission_playbook` returns a playbook (no error) whose
`flight_parameters` are clamped into altitude [10, 120] and speed [1, 15],
regardless of the caller's `altitude_m` / `speed_mps` arguments. -/
theorem C10_create_clamps (mission_id mission_type description : String)
    (waypoints : List InWaypoint) (altitude_m speed_mps : ℝ) (pattern : String)
    (h : waypoints ≠ []) :
    ∃ pb, create_mission_playbook mission_id mission_type description waypoints
        altitude_m speed_mps pattern = Except.ok pb ∧
      10 ≤ pb.flight_parameters.altitude_m ∧ pb.flight_parameters.altitude_m ≤ 120 ∧
      1 ≤ pb.flight_parameters.speed_mps ∧ pb.flight_parameters.speed_mps ≤ 15 := by
  match waypoints with
  | [] => exact absurd rfl h
  | w :: ws =>
    simp only [create_mission_playbook, SAFETY_min_altitude_m, SAFETY_max_altitude_m,
      SAFETY_min_speed_mps, SAFETY_max_speed_mps]
    refine ⟨_, rfl, ?_, ?_, ?_, ?_⟩
    · exact le_max_left _ _
    · exact max_le (by norm_num) (min_le_right _ _)
    · exact le_max_left _ _
    · exact max_le (by norm_num) (min_le_right _ _)

/-- Witness for claim C10: wildly out-of-range arguments still produce a
playbook with in-bounds flight parameters. -/
theorem C10_create_clamps_witness :
    ∃ pb, create_mission_playbook "w" "patrol" "d"
        [{ lat := 0, lon := 0, alt := none, action := none, hover_duration_sec := none }]
        1000 99 "direct" = Except.ok pb ∧
      10 ≤ pb.flight_parameters.altitude_m ∧ pb.flight_parameters.altitude_m ≤ 120 ∧
      1 ≤ pb.flight_parameters.speed_mps ∧ pb.flight_parameters.speed_mps ≤ 15 :=
  C10_create_clamps "w" "patrol" "d" _ 1000 99 "direct" (List.cons_ne_nil _ _)

/-! ## Claim C9: haversine identity and symmetry -/

/-- Claim C9: `calculate_distance_haversine` (great-circle distance with mean
Earth radius 6,371,000 m) vanishes on equal coordinates and is symmetric in
its two coordinates. -/
theorem C9_haversine_identity_symmetry :
    (∀ lat lon : ℝ, calculate_distance_haversine lat lon lat lon = 0) ∧
    (∀ lat1 lon1 lat2 lon2 : ℝ,
      calculate_distance_haversine lat1 lon1 lat2 lon2 =
        calculate_distance_haversine lat2 lon2 lat1 lon1) := by
  constructor
  · intro lat lon
    have h0 : atan2 0 1 = 0 := by norm_num [atan2, Real.arctan_zero]
    norm_num [calculate_distance_haversine, radians, Real.sin_zero,
      Real.sqrt_zero, Real.sqrt_one, h0]
  · intro lat1 lon1 lat2 lon2
    have hlat : radians (lat1 - lat2) = -(radians (lat2 - lat1)) := by
      simp only [radians]; ring
    have hlon : radians (lon1 - lon2) = -(radians (lon2 - lon1)) := by
      simp only [radians]; ring
    have ha :
        Real.sin (radians (lat1 - lat2) / 2) ^ 2 +
          Real.cos (radians lat2) * Real.cos (radians lat1) *
            Real.sin (radians (lon1 - lon2) / 2) ^ 2 =
        Real.sin (radians (lat2 - lat1) / 2) ^ 2 +
          Real.cos (radians lat1) * Real.cos (radians lat2) *
            Real.sin (radians (lon2 - lon1) / 2) ^ 2 := by
      rw [hlat, hlon, neg_div, neg_div, Real.sin_neg, Real.sin_neg]
      ring
    simp only [calculate_distance_haversine]
    rw [ha]

/-! ## Claim C7: mission duration estimation -/

/-- The source's accumulation loop equals the spec-level "sum of
consecutive-pair distances divided by speed". -/
theorem flightTimeLoop_eq (speed_mps : ℝ) (wps : List Waypoint) :
    flightTimeLoop speed_mps wps = sumConsecutiveDist wps / speed_mps := by
  induction wps with
  | nil => simp [flightTimeLoop, sumConsecutiveDist]
  | cons a rest ih =>
    cases rest with
    | nil => simp [flightTimeLoop, sumConsecutiveDist]
    | cons b rest2 =>
      have hexp : sumConsecutiveDist (a :: b :: rest2) =
          calculate_distance_haversine a.lat a.lon b.lat b.lon +
            sumConsecutiveDist (b :: rest2) := by
        simp [sumConsecutiveDist]
      simp only [flightTimeLoop, hexp, ih, add_div]

/-- `round1` fixes integers. -/
theorem round1_int (n : ℤ) : round1 ((n : ℤ) : ℝ) = (n : ℝ) := by
  have h : (10 : ℝ) * ((n : ℤ) : ℝ) = ((10 * n : ℤ) : ℝ) := by push_cast; ring
  rw [round1, h, round_intCast]
  push_cast
  ring

/-- Claim C7 (amended): for a non-empty waypoint list the total estimated
duration computed by `calculate_flight_time` is the (rounded) sum of
consecutive-pair haversine distances divided by speed, plus the uniform
`hover_time_per_action_s` for every waypoint with an action — irrespective of
any explicit hover duration — plus the fixed 30 s takeoff/landing
allowance. -/
theorem C7_duration_amended (wps : List Waypoint) (speed_mps t : ℝ)
    (h : wps ≠ []) :
    (calculate_flight_time wps speed_mps t).total_time_s =
      round1 (estimate_total_amended wps speed_mps t) ∧
    (calculate_flight_time wps speed_mps t).flight_time_s =
      round1 (sumConsecutiveDist wps / speed_mps) := by
  match wps with
  | [] => exact absurd rfl h
  | wp :: rest =>
    simp [calculate_flight_time, flightTimeLoop_eq, estimate_total_amended]

/-- A hover waypoint with an explicit 10 s hover duration. -/
def hoverWp : Waypoint :=
  { lat := 0, lon := 0, alt := 50, action := some "hover", hover_duration_sec := some 10 }

/-- Witness for claim C7 (amended) at a concrete waypoint list. -/
theorem C7_duration_amended_witness :
    (calculate_flight_time [hoverWp] 10 5).total_time_s =
      round1 (estimate_total_amended [hoverWp] 10 5) ∧
    (calculate_flight_time [hoverWp] 10 5).flight_time_s =
      round1 (sumConsecutiveDist [hoverWp] / 10) :=
  C7_duration_amended [hoverWp] 10 5 (List.cons_ne_nil _ _)

/-- Counterexample to claim C7 as stated: for a single hover waypoint with an
explicit 10 s hover duration the spec formula gives 40 s, while the code's
`calculate_flight_time` (which ignores explicit hover durations and charges
the uniform 5 s per action) gives 35 s. -/
theorem C7_counterexample :
    estimate_duration_spec [hoverWp] 10 = 40 ∧
    (calculate_flight_time [hoverWp] 10 5).total_time_s = 35 ∧
    (35 : ℝ) ≠ 40 := by
  have htr : strTruthy hoverWp.action = true := rfl
  have hsum : sumConsecutiveDist [hoverWp] = 0 := by
    simp [sumConsecutiveDist]
  refine ⟨?_, ?_, by norm_num⟩
  · simp only [estimate_duration_spec, hsum, List.map_cons, List.map_nil, htr, if_true]
    norm_num [hoverWp]
  · have h35 : round1 ((35 : ℤ) : ℝ) = ((35 : ℤ) : ℝ) := round1_int 35
    norm_num at h35
    simp only [calculate_flight_time, flightTimeLoop, List.filter, htr,
      List.length_cons, List.length_nil]
    norm_num [h35]

/-! ## Helper lemmas: the simulator step -/

/-- `simulate_step` never touches `current_mission`. -/
theorem simulate_step_cm (e : Env) (sim : Simulator) :
    (simulate_step e sim).current_mission = sim.current_mission := by
  cases hst : sim.state.status <;>
    simp only [simulate_step, hst] <;>
    try rfl
  all_goals
    first
    | (split_ifs <;> rfl)
    | (cases hcm : sim.current_mission <;>
        simp only [hcm] <;> split_ifs <;> simp [hcm])

/-- `simulate_step` never rebinds the `position` dict: `posAddr` is
unchanged (only `start_mission` allocates a fresh position dict). -/
theorem simulate_step_posAddr (e : Env) (sim : Simulator) :
    (simulate_step e sim).state.posAddr = sim.state.posAddr := by
  cases hst : sim.state.status <;>
    simp only [simulate_step, hst] <;>
    try rfl
  all_goals
    first
    | (split_ifs <;> rfl)
    | (cases hcm : sim.current_mission <;>
        simp only [hcm] <;> split_ifs <;> simp [hcm])

/-- An idle simulator is left untouched by `simulate_step`. -/
theorem simulate_step_idle (e : Env) (sim : Simulator)
    (h : sim.state.status = Phase.idle) : simulate_step e sim = sim := by
  simp [simulate_step, h]

/-- Takeoff tick: either still climbing (status and waypoint index unchanged)
or takeoff complete (en_route at waypoint index 0). -/
theorem simulate_step_takeoff (e : Env) (sim : Simulator)
    (h : sim.state.status = Phase.takeoff) :
    ((simulate_step e sim).state.status = Phase.takeoff ∧
      (simulate_step e sim).state.current_waypoint = sim.state.current_waypoint) ∨
    ((simulate_step e sim).state.status = Phase.en_route ∧
      (simulate_step e sim).state.current_waypoint = 0) := by
  simp only [simulate_step, h]
  split_ifs <;> simp_all

/-- Hovering tick: back to en_route with the waypoint index advanced. -/
theorem simulate_step_hovering (e : Env) (sim : Simulator)
    (h : sim.state.status = Phase.hovering) :
    (simulate_step e sim).state.status = Phase.en_route ∧
    (simulate_step e sim).state.current_waypoint = sim.state.current_waypoint + 1 := by
  simp only [simulate_step, h]
  split_ifs <;> simp_all

/-- Landing tick: either still descending or touched down (completed); the
waypoint index is never changed. -/
theorem simulate_step_landing (e : Env) (sim : Simulator)
    (h : sim.state.status = Phase.landing) :
    (((simulate_step e sim).state.status = Phase.landing) ∨
      ((simulate_step e sim).state.status = Phase.completed)) ∧
    (simulate_step e sim).state.current_waypoint = sim.state.current_waypoint := by
  simp only [simulate_step, h]
  split_ifs <;> simp_all

/-- A completed simulator keeps its status and waypoint index under
`simulate_step` (only the bookkeeping fields change). -/
theorem simulate_step_completed (e : Env) (sim : Simulator)
    (h : sim.state.status = Phase.completed) :
    (simulate_step e sim).state.status = Phase.completed ∧
    (simulate_step e sim).state.current_waypoint = sim.state.current_waypoint := by
  simp only [simulate_step, h]
  split_ifs <;> simp_all

/-- En-route tick with a mission loaded: either all waypoints are done and the
status flips to landing, or the current waypoint index is in range and the
tick moves (index unchanged), starts hovering (index unchanged), or arrives at
an action-free waypoint (index advanced by one). -/
theorem simulate_step_en_route (e : Env) (sim : Simulator) (pb : DemoPlaybook)
    (h : sim.state.status = Phase.en_route)
    (hcm : sim.current_mission = some pb) :
    ((pb.waypoints.length : ℤ) ≤ sim.state.current_waypoint ∧
      (simulate_step e sim).state.status = Phase.landing ∧
      (simulate_step e sim).state.current_waypoint = sim.state.current_waypoint) ∨
    (sim.state.current_waypoint < (pb.waypoints.length : ℤ) ∧
      (((simulate_step e sim).state.status = Phase.en_route ∧
         (simulate_step e sim).state.current_waypoint = sim.state.current_waypoint) ∨
       ((simulate_step e sim).state.status = Phase.hovering ∧
         (simulate_step e sim).state.current_waypoint = sim.state.current_waypoint) ∨
       ((simulate_step e sim).state.status = Phase.en_route ∧
         (simulate_step e sim).state.current_waypoint = sim.state.current_waypoint + 1))) := by
  simp only [simulate_step, h, hcm]
  by_cases hk : (pb.waypoints.length : ℤ) ≤ sim.state.current_waypoint
  · left
    refine ⟨hk, ?_⟩
    split_ifs <;> simp_all
  · right
    refine ⟨lt_of_not_le hk, ?_⟩
    split_ifs <;> simp_all

/-- Descending landing tick: still landing, same position dict, altitude
decreased by 1 m (clamped at 0). -/
theorem simulate_step_landing_pos (e : Env) (sim : Simulator)
    (h : sim.state.status = Phase.landing)
    (halt : (sim.heap sim.state.posAddr).alt > 0) :
    (simulate_step e sim).state.status = Phase.landing ∧
    (simulate_step e sim).state.posAddr = sim.state.posAddr ∧
    ((simulate_step e sim).heap (simulate_step e sim).state.posAddr).alt =
      max 0 ((sim.heap sim.state.posAddr).alt - 1) := by
  simp only [simulate_step, h]
  split_ifs <;> simp_all [Function.update_same]

/-- Touch-down landing tick: at altitude 0 (or below) the status flips to
completed. -/
theorem simulate_step_landing_zero (e : Env) (sim : Simulator)
    (h : sim.state.status = Phase.landing)
    (halt : ¬ (sim.heap sim.state.posAddr).alt > 0) :
    (simulate_step e sim).state.status = Phase.completed := by
  simp only [simulate_step, h]
  split_ifs <;> simp_all

/-- Once completed, the status stays completed under any number of steps. -/
theorem stepRun_completed (envs : ℕ → Env) (n : ℕ) (sim : Simulator)
    (h : sim.state.status = Phase.completed) :
    (stepRun envs n sim).state.status = Phase.completed := by
  induction n generalizing envs sim with
  | zero => exact h
  | succ n ih =>
    simp only [stepRun]
    exact ih _ _ (simulate_step_completed (envs 0) sim h).1

/-- From the landing phase at altitude at most `n`, the simulator reaches the
terminal phase `completed` within `n + 1` steps. -/
theorem landing_descends (envs : ℕ → Env) (n : ℕ) (sim : Simulator)
    (h : sim.state.status = Phase.landing)
    (halt : (sim.heap sim.state.posAddr).alt ≤ n) :
    (stepRun envs (n + 1) sim).state.status = Phase.completed := by
  induction n generalizing envs sim with
  | zero =>
    have hz : ¬ (sim.heap sim.state.posAddr).alt > 0 := by
      simp only [Nat.cast_zero] at halt
      exact not_lt.mpr halt
    exact simulate_step_landing_zero (envs 0) sim h hz
  | succ n ih =>
    by_cases hpos : (sim.heap sim.state.posAddr).alt > 0
    · have hstep := simulate_step_landing_pos (envs 0) sim h hpos
      show (stepRun (fun i => envs (i + 1)) (n + 1) (simulate_step (envs 0) sim)).state.status
        = Phase.completed
      refine ih _ _ hstep.1 ?_
      rw [hstep.2.2]
      have : (sim.heap sim.state.posAddr).alt - 1 ≤ (n : ℝ) := by
        push_cast at halt ⊢
        linarith
      exact max_le (by positivity) this
    · show (stepRun (fun i => envs (i + 1)) (n + 1)
          (simulate_step (envs 0) sim)).state.status = Phase.completed
      exact stepRun_completed _ _ _ (simulate_step_landing_zero (envs 0) sim h hpos)

/-! ## Claim C4: abort forces landing; terminal phase -/

/-- The zero-randomness tick environment used for concrete traces. -/
def env0 : Env := { randTemp := 0, randSat := 0 }

/-- Claim C4 (amended): `abort_mission` immediately forces the `landing`
phase (unconditionally — there is no not-running check), freezes the waypoint
index so all remaining waypoints are skipped, and once altitude reaches 0 the
terminal phase recorded is `completed`: the simulator has no `aborted`
phase. -/
theorem C4_abort_amended (sim : Simulator) (envs : ℕ → Env) (n : ℕ) :
    (abort_mission sim).state.status = Phase.landing ∧
    (abort_mission sim).state.current_waypoint = sim.state.current_waypoint ∧
    (((abort_mission sim).heap (abort_mission sim).state.posAddr).alt ≤ n →
      (stepRun envs (n + 1) (abort_mission sim)).state.status = Phase.completed) :=
  ⟨rfl, rfl, fun halt => landing_descends envs n _ rfl halt⟩

/-- Witness for claim C4 (amended): aborting the freshly initialised simulator
(altitude 0) lands in the `completed` phase after one step. -/
theorem C4_abort_amended_witness :
    (abort_mission initSim).state.status = Phase.landing ∧
    (stepRun (fun _ => env0) 1 (abort_mission initSim)).state.status = Phase.completed :=
  ⟨(C4_abort_amended initSim (fun _ => env0) 0).1,
   (C4_abort_amended initSim (fun _ => env0) 0).2.2
     (by simp [abort_mission, initSim])⟩

/-- A ground-level waypoint for concrete traces. -/
def wp00 : Waypoint :=
  { lat := 0, lon := 0, alt := 0, action := none, hover_duration_sec := none }

/-- Two-waypoint demo playbook for the C4 trace. -/
def pbC4 : DemoPlaybook :=
  { mission_id := "c4", mission_type := "patrol", description := "d",
    waypoints := [wp00, wp00], flight_parameters := none, max_duration_min := 30 }

/-- Counterexample to claim C4 as stated: aborting mid-`en_route` does force
`landing`, but the terminal phase recorded once altitude reaches 0 is
`completed`, not `aborted`. -/
theorem C4_counterexample :
    (simulate_step env0 (start_mission pbC4 initSim)).state.status = Phase.en_route ∧
    (abort_mission (simulate_step env0 (start_mission pbC4 initSim))).state.status =
      Phase.landing ∧
    (simulate_step env0 (abort_mission
      (simulate_step env0 (start_mission pbC4 initSim)))).state.status =
      Phase.completed ∧
    Phase.completed ≠ Phase.aborted := by
  refine ⟨?_, rfl, ?_, by simp⟩
  · norm_num [simulate_step, start_mission, initSim, pbC4, wp00, env0,
      Function.update_same, min_def, max_def] <;> simp
  · norm_num [simulate_step, start_mission, initSim, pbC4, wp00, env0,
      abort_mission, Function.update_same, min_def, max_def] <;> simp

/-! ## Claim C6: snapshots and the shared position dict -/

/-- Claim C6 (amended): `get_state` is a *shallow* copy: the snapshot's
top-level fields are value copies, but the nested position dict is shared by
reference, so after a later `simulate_step` the old snapshot's position reads
the engine's current position (the same heap cell), not the position at
snapshot time. -/
theorem C6_snapshot_shares_position (sim : Simulator) (e : Env) :
    (get_state sim).posAddr = sim.state.posAddr ∧
    readPos (simulate_step e sim) (get_state sim) =
      readPos (simulate_step e sim) (get_state (simulate_step e sim)) := by
  refine ⟨rfl, ?_⟩
  simp only [readPos, get_state, simulate_step_posAddr]

/-- Climb waypoint for the C6 trace. -/
def wpC6 : Waypoint :=
  { lat := 0, lon := 0, alt := 2, action := none, hover_duration_sec := none }

/-- One-waypoint demo playbook for the C6 trace. -/
def pbC6 : DemoPlaybook :=
  { mission_id := "c6", mission_type := "patrol", description := "d",
    waypoints := [wpC6], flight_parameters := none, max_duration_min := 30 }

/-- Counterexample to claim C6 as stated: a snapshot taken before a takeoff
climb tick is mutated through the shared position dict — its nested position
altitude reads 0 before the step and 2 after the step. -/
theorem C6_counterexample :
    (readPos (start_mission pbC6 initSim) (get_state (start_mission pbC6 initSim))).alt
      = 0 ∧
    (readPos (simulate_step env0 (start_mission pbC6 initSim))
      (get_state (start_mission pbC6 initSim))).alt = 2 ∧
    (0 : ℝ) ≠ 2 := by
  refine ⟨?_, ?_, by norm_num⟩
  · norm_num [readPos, get_state, start_mission, initSim, pbC6, wpC6,
      Function.update_same]
  · norm_num [readPos, get_state, simulate_step, start_mission, initSim, pbC6,
      wpC6, env0, Function.update_same, min_def, max_def] <;> simp

/-! ## Claim C5: the critical-battery abort path -/

/-- On a tick whose post-step state is not completed and has battery below
10%, the telemetry loop sends the critical event and calls `abort_mission`:
the abort counter increments and the simulator is forced to `landing`.  (This
happens on *every* such tick — the loop has no already-aborting guard.) -/
theorem wstick_critical (e : Env) (ls : LoopState)
    (hfin : ls.finished = false)
    (hstat : (simulate_step e ls.sim).state.status ≠ Phase.completed)
    (hbat : (simulate_step e ls.sim).state.battery < 10) :
    (wstick e ls).abort_calls = ls.abort_calls + 1 ∧
    (wstick e ls).sim = abort_mission (simulate_step e ls.sim) ∧
    (wstick e ls).sim.state.status = Phase.landing ∧
    (wstick e ls).finished = false := by
  simp only [wstick, hfin, Bool.false_eq_true, if_false, get_state,
    if_neg hstat, if_pos hbat]
  refine ⟨?_, ?_, ?_, ?_⟩ <;> first | rfl | trivial

/-- Claim C5 (amended): every telemetry tick whose post-step state has
battery below 10% and is not completed invokes `abort_mission` (exactly once
per tick, re-triggered on every subsequent such tick), forcing `landing`. -/
theorem C5_abort_every_tick (e : Env) (ls : LoopState)
    (hfin : ls.finished = false)
    (hstat : (simulate_step e ls.sim).state.status ≠ Phase.completed)
    (hbat : (simulate_step e ls.sim).state.battery < 10) :
    (wstick e ls).abort_calls = ls.abort_calls + 1 ∧
    (wstick e ls).sim.state.status = Phase.landing :=
  ⟨(wstick_critical e ls hfin hstat hbat).1,
   (wstick_critical e ls hfin hstat hbat).2.2.1⟩

/-- A mid-takeoff simulator state with the battery already critical (a
websocket may attach at any point of a mission's life). -/
def simC5 : Simulator :=
  { state :=
      { mission_id := none, status := Phase.takeoff, posAddr := 0,
        battery := 9, speed := 0, heading := 0, current_waypoint := -1,
        total_waypoints := 0, gps_satellites := 12, signal_strength := 100,
        temperature := 25, timestamp := 0 }
    heap := fun _ => { lat := 0, lon := 0, alt := 0 }
    nextAddr := 1
    current_mission := none
    takeoff_altitude := 5 }

/-- Witness for claim C5 (amended) at a concrete loop state. -/
theorem C5_abort_every_tick_witness :
    (wstick env0 (wsInit simC5)).abort_calls = (wsInit simC5).abort_calls + 1 ∧
    (wstick env0 (wsInit simC5)).sim.state.status = Phase.landing :=
  C5_abort_every_tick env0 (wsInit simC5) rfl
    (by simp [simulate_step, simC5, wsInit, env0, min_def, max_def] <;> norm_num)
    (by simp [simulate_step, simC5, wsInit, env0, min_def, max_def] <;> norm_num)

/-- Counterexample to claim C5 as stated: two consecutive ticks below 10%
battery invoke `abort_mission` twice, not exactly once. -/
theorem C5_counterexample :
    (wsRun (fun _ => env0) 2 (wsInit simC5)).abort_calls = 2 ∧ (2 : ℕ) ≠ 1 := by
  refine ⟨?_, by norm_num⟩
  have h1 := wstick_critical env0 (wsInit simC5) rfl
    (by simp [simulate_step, simC5, wsInit, env0, min_def, max_def] <;> norm_num)
    (by simp [simulate_step, simC5, wsInit, env0, min_def, max_def] <;> norm_num)
  have h2 := wstick_critical env0 (wstick env0 (wsInit simC5)) h1.2.2.2
    (by rw [h1.2.1]
        simp [simulate_step, abort_mission, simC5, wsInit, env0, min_def,
          max_def, Function.update_same] <;> norm_num <;> decide)
    (by rw [h1.2.1]
        simp [simulate_step, abort_mission, simC5, wsInit, env0, min_def,
          max_def, Function.update_same] <;> norm_num)
  show (wstick env0 (wstick env0 (wsInit simC5))).abort_calls = 2
  rw [h2.1, h1.1]
  rfl

/-! ## Claim C1: waypoint events over a full mission -/

/-- A finished loop ignores further ticks (`break` has been taken). -/
theorem wstick_finished_stop (e : Env) (ls : LoopState) (h : ls.finished = true) :
    wstick e ls = ls := by
  simp [wstick, h]

/-- The simulator after one live tick: stepped, and additionally aborted when
the critical-battery branch fired. -/
theorem wstick_sim (e : Env) (ls : LoopState) (h : ls.finished = false) :
    (wstick e ls).sim =
      if (simulate_step e ls.sim).state.status = Phase.completed then
        simulate_step e ls.sim
      else if (simulate_step e ls.sim).state.battery < 10 then
        abort_mission (simulate_step e ls.sim)
      else simulate_step e ls.sim := by
  simp only [wstick, h, Bool.false_eq_true, if_false, get_state]
  split_ifs <;> rfl

/-- The loop finishes exactly when the post-step status is completed. -/
theorem wstick_finished (e : Env) (ls : LoopState) (h : ls.finished = false) :
    (wstick e ls).finished =
      if (simulate_step e ls.sim).state.status = Phase.completed then true
      else false := by
  simp only [wstick, h, Bool.false_eq_true, if_false, get_state]
  split_ifs <;> rfl

/-- The abort counter increments exactly on live non-completed ticks with
battery below 10%. -/
theorem wstick_abort_calls (e : Env) (ls : LoopState) (h : ls.finished = false) :
    (wstick e ls).abort_calls =
      if (simulate_step e ls.sim).state.status = Phase.completed then ls.abort_calls
      else if (simulate_step e ls.sim).state.battery < 10 then ls.abort_calls + 1
      else ls.abort_calls := by
  simp only [wstick, h, Bool.false_eq_true, if_false, get_state]
  split_ifs <;> rfl

/-- The `previous_waypoint` tracker follows the waypoint-event condition. -/
theorem wstick_prev_wp (e : Env) (ls : LoopState) (h : ls.finished = false) :
    (wstick e ls).prev_wp =
      if (simulate_step e ls.sim).state.current_waypoint ≠ ls.prev_wp ∧
          0 ≤ (simulate_step e ls.sim).state.current_waypoint then
        (simulate_step e ls.sim).state.current_waypoint
      else ls.prev_wp := by
  simp only [wstick, h, Bool.false_eq_true, if_false, get_state]
  split_ifs <;> rfl

/-- One live tick appends exactly one `waypoint_reached` index (the new
`current_waypoint`) when the event condition holds, and none otherwise. -/
theorem wstick_wpIdx (e : Env) (ls : LoopState) (h : ls.finished = false) :
    wpIdx (wstick e ls).msgs =
      wpIdx ls.msgs ++
        (if (simulate_step e ls.sim).state.current_waypoint ≠ ls.prev_wp ∧
            0 ≤ (simulate_step e ls.sim).state.current_waypoint then
          [(simulate_step e ls.sim).state.current_waypoint]
        else []) := by
  simp only [wstick, h, Bool.false_eq_true, if_false, get_state]
  split_ifs <;> simp [wpIdx, List.filterMap_append]

/-- `seqTo 0 = [0]`. -/
theorem seqTo_zero : seqTo 0 = [0] := rfl

/-- `seqTo (k+1)` extends `seqTo k` by the next index. -/
theorem seqTo_succ (k : ℕ) : seqTo (k + 1) = seqTo k ++ [(k : ℤ) + 1] := by
  simp [seqTo, List.range_succ]

/-- The loop invariant for claim C1: unless the critical-battery abort has
fired, the `waypoint_reached` indices emitted so far are exactly
`[0 .. current_waypoint]`, the tracker `prev_wp` equals the current waypoint
index, and the phase/index pair is in one of the five reachable shapes. -/
def C1Inv (pb : DemoPlaybook) (ls : LoopState) : Prop :=
  ls.abort_calls ≠ 0 ∨
  (ls.sim.current_mission = some pb ∧
    ((ls.finished = false ∧ ls.sim.state.status = Phase.takeoff ∧
        ls.sim.state.current_waypoint = -1 ∧ ls.prev_wp = -1 ∧ wpIdx ls.msgs = []) ∨
     (∃ k : ℕ, k ≤ pb.waypoints.length ∧ ls.finished = false ∧
        ls.sim.state.status = Phase.en_route ∧
        ls.sim.state.current_waypoint = (k : ℤ) ∧ ls.prev_wp = (k : ℤ) ∧
        wpIdx ls.msgs = seqTo k) ∨
     (∃ k : ℕ, k < pb.waypoints.length ∧ ls.finished = false ∧
        ls.sim.state.status = Phase.hovering ∧
        ls.sim.state.current_waypoint = (k : ℤ) ∧ ls.prev_wp = (k : ℤ) ∧
        wpIdx ls.msgs = seqTo k) ∨
     (ls.finished = false ∧ ls.sim.state.status = Phase.landing ∧
        ls.sim.state.current_waypoint = (pb.waypoints.length : ℤ) ∧
        ls.prev_wp = (pb.waypoints.length : ℤ) ∧
        wpIdx ls.msgs = seqTo pb.waypoints.length) ∨
     (ls.finished = true ∧ ls.sim.state.status = Phase.completed ∧
        wpIdx ls.msgs = seqTo pb.waypoints.length)))

/-- One telemetry tick preserves the C1 invariant. -/
theorem C1Inv_step (pb : DemoPlaybook) (e : Env) (ls : LoopState)
    (hInv : C1Inv pb ls) : C1Inv pb (wstick e ls) := by
  by_cases hfin : ls.finished = true
  · rw [wstick_finished_stop e ls hfin]
    exact hInv
  have hf : ls.finished = false := by
    revert hfin
    cases ls.finished <;> simp
  rcases hInv with habort | ⟨hcm, hcase⟩
  · left
    rw [wstick_abort_calls e ls hf]
    split_ifs <;> omega
  have hcm' : (simulate_step e ls.sim).current_mission = some pb := by
    rw [simulate_step_cm]
    exact hcm
  rcases hcase with ⟨-, hA2, hA3, hA4, hA5⟩ | ⟨k, hk, -, hB2, hB3, hB4, hB5⟩ |
    ⟨k, hk, -, hC2, hC3, hC4, hC5⟩ | ⟨-, hD2, hD3, hD4, hD5⟩ | ⟨hE1, -, -⟩
  · -- takeoff
    rcases simulate_step_takeoff e ls.sim hA2 with ⟨hs, hw⟩ | ⟨hs, hw⟩
    · -- still climbing
      have hnc : (simulate_step e ls.sim).state.status ≠ Phase.completed := by
        rw [hs]; simp
      have hev : ¬ ((simulate_step e ls.sim).state.current_waypoint ≠ ls.prev_wp ∧
          0 ≤ (simulate_step e ls.sim).state.current_waypoint) := by
        rw [hw, hA3, hA4]; simp
      by_cases hbat : (simulate_step e ls.sim).state.battery < 10
      · left
        rw [wstick_abort_calls e ls hf, if_neg hnc, if_pos hbat]
        omega
      · right
        refine ⟨?_, Or.inl ⟨?_, ?_, ?_, ?_, ?_⟩⟩
        · rw [wstick_sim e ls hf, if_neg hnc, if_neg hbat]; exact hcm'
        · rw [wstick_finished e ls hf, if_neg hnc]
        · rw [wstick_sim e ls hf, if_neg hnc, if_neg hbat]; exact hs
        · rw [wstick_sim e ls hf, if_neg hnc, if_neg hbat, hw]; exact hA3
        · rw [wstick_prev_wp e ls hf, if_neg hev]; exact hA4
        · rw [wstick_wpIdx e ls hf, if_neg hev, hA5]; simp
    · -- takeoff complete: en_route at waypoint 0
      have hnc : (simulate_step e ls.sim).state.status ≠ Phase.completed := by
        rw [hs]; simp
      have hev : ((simulate_step e ls.sim).state.current_waypoint ≠ ls.prev_wp ∧
          0 ≤ (simulate_step e ls.sim).state.current_waypoint) := by
        rw [hw, hA4]; norm_num
      by_cases hbat : (simulate_step e ls.sim).state.battery < 10
      · left
        rw [wstick_abort_calls e ls hf, if_neg hnc, if_pos hbat]
        omega
      · right
        refine ⟨?_, Or.inr (Or.inl ⟨0, Nat.zero_le _, ?_, ?_, ?_, ?_, ?_⟩)⟩
        · rw [wstick_sim e ls hf, if_neg hnc, if_neg hbat]; exact hcm'
        · rw [wstick_finished e ls hf, if_neg hnc]
        · rw [wstick_sim e ls hf, if_neg hnc, if_neg hbat]; exact hs
        · rw [wstick_sim e ls hf, if_neg hnc, if_neg hbat, hw]; simp
        · rw [wstick_prev_wp e ls hf, if_pos hev, hw]; simp
        · rw [wstick_wpIdx e ls hf, if_pos hev, hA5, hw, seqTo_zero]; simp
  · -- en_route at waypoint k ≤ N
    rcases simulate_step_en_route e ls.sim pb hB2 hcm with ⟨hge, hs, hw⟩ |
      ⟨hlt, ⟨hs, hw⟩ | ⟨hs, hw⟩ | ⟨hs, hw⟩⟩
    · -- all waypoints done: landing, index frozen at k = N
      have hkN : k = pb.waypoints.length := by
        rw [hB3] at hge
        exact_mod_cast le_antisymm hk (by exact_mod_cast hge)
      have hnc : (simulate_step e ls.sim).state.status ≠ Phase.completed := by
        rw [hs]; simp
      have hev : ¬ ((simulate_step e ls.sim).state.current_waypoint ≠ ls.prev_wp ∧
          0 ≤ (simulate_step e ls.sim).state.current_waypoint) := by
        rw [hw, hB3, hB4]; simp
      by_cases hbat : (simulate_step e ls.sim).state.battery < 10
      · left
        rw [wstick_abort_calls e ls hf, if_neg hnc, if_pos hbat]
        omega
      · right
        refine ⟨?_, Or.inr (Or.inr (Or.inr (Or.inl ⟨?_, ?_, ?_, ?_, ?_⟩)))⟩
        · rw [wstick_sim e ls hf, if_neg hnc, if_neg hbat]; exact hcm'
        · rw [wstick_finished e ls hf, if_neg hnc]
        · rw [wstick_sim e ls hf, if_neg hnc, if_neg hbat]; exact hs
        · rw [wstick_sim e ls hf, if_neg hnc, if_neg hbat, hw, hB3, hkN]
        · rw [wstick_prev_wp e ls hf, if_neg hev, hB4, hkN]
        · rw [wstick_wpIdx e ls hf, if_neg hev, hB5, hkN]; simp
    · -- moving toward waypoint k
      have hnc : (simulate_step e ls.sim).state.status ≠ Phase.completed := by
        rw [hs]; simp
      have hev : ¬ ((simulate_step e ls.sim).state.current_waypoint ≠ ls.prev_wp ∧
          0 ≤ (simulate_step e ls.sim).state.current_waypoint) := by
        rw [hw, hB3, hB4]; simp
      by_cases hbat : (simulate_step e ls.sim).state.battery < 10
      · left
        rw [wstick_abort_calls e ls hf, if_neg hnc, if_pos hbat]
        omega
      · right
        refine ⟨?_, Or.inr (Or.inl ⟨k, hk, ?_, ?_, ?_, ?_, ?_⟩)⟩
        · rw [wstick_sim e ls hf, if_neg hnc, if_neg hbat]; exact hcm'
        · rw [wstick_finished e ls hf, if_neg hnc]
        · rw [wstick_sim e ls hf, if_neg hnc, if_neg hbat]; exact hs
        · rw [wstick_sim e ls hf, if_neg hnc, if_neg hbat, hw]; exact hB3
        · rw [wstick_prev_wp e ls hf, if_neg hev]; exact hB4
        · rw [wstick_wpIdx e ls hf, if_neg hev, hB5]; simp
    · -- arrived with an action: hovering at waypoint k < N
      have hkN : k < pb.waypoints.length := by
        rw [hB3] at hlt
        exact_mod_cast hlt
      have hnc : (simulate_step e ls.sim).state.status ≠ Phase.completed := by
        rw [hs]; simp
      have hev : ¬ ((simulate_step e ls.sim).state.current_waypoint ≠ ls.prev_wp ∧
          0 ≤ (simulate_step e ls.sim).state.current_waypoint) := by
        rw [hw, hB3, hB4]; simp
      by_cases hbat : (simulate_step e ls.sim).state.battery < 10
      · left
        rw [wstick_abort_calls e ls hf, if_neg hnc, if_pos hbat]
        omega
      · right
        refine ⟨?_, Or.inr (Or.inr (Or.inl ⟨k, hkN, ?_, ?_, ?_, ?_, ?_⟩))⟩
        · rw [wstick_sim e ls hf, if_neg hnc, if_neg hbat]; exact hcm'
        · rw [wstick_finished e ls hf, if_neg hnc]
        · rw [wstick_sim e ls hf, if_neg hnc, if_neg hbat]; exact hs
        · rw [wstick_sim e ls hf, if_neg hnc, if_neg hbat, hw]; exact hB3
        · rw [wstick_prev_wp e ls hf, if_neg hev]; exact hB4
        · rw [wstick_wpIdx e ls hf, if_neg hev, hB5]; simp
    · -- arrived with no action: en_route at waypoint k+1
      have hk1 : k + 1 ≤ pb.waypoints.length := by
        rw [hB3] at hlt
        exact_mod_cast hlt
      have hev : ((simulate_step e ls.sim).state.current_waypoint ≠ ls.prev_wp ∧
          0 ≤ (simulate_step e ls.sim).state.current_waypoint) := by
        rw [hw, hB3, hB4]
        constructor
        · omega
        · positivity
      have hnc : (simulate_step e ls.sim).state.status ≠ Phase.completed := by
        rw [hs]; simp
      by_cases hbat : (simulate_step e ls.sim).state.battery < 10
      · left
        rw [wstick_abort_calls e ls hf, if_neg hnc, if_pos hbat]
        omega
      · right
        refine ⟨?_, Or.inr (Or.inl ⟨k + 1, hk1, ?_, ?_, ?_, ?_, ?_⟩)⟩
        · rw [wstick_sim e ls hf, if_neg hnc, if_neg hbat]; exact hcm'
        · rw [wstick_finished e ls hf, if_neg hnc]
        · rw [wstick_sim e ls hf, if_neg hnc, if_neg hbat]; exact hs
        · rw [wstick_sim e ls hf, if_neg hnc, if_neg hbat, hw, hB3]; push_cast; ring
        · rw [wstick_prev_wp e ls hf, if_pos hev, hw, hB3]; push_cast; ring
        · rw [wstick_wpIdx e ls hf, if_pos hev, hB5, hw, hB3, seqTo_succ]
  · -- hovering at waypoint k < N
    obtain ⟨hs, hw⟩ := simulate_step_hovering e ls.sim hC2
    have hk1 : k + 1 ≤ pb.waypoints.length := hk
    have hev : ((simulate_step e ls.sim).state.current_waypoint ≠ ls.prev_wp ∧
        0 ≤ (simulate_step e ls.sim).state.current_waypoint) := by
      rw [hw, hC3, hC4]
      constructor
      · omega
      · positivity
    have hnc : (simulate_step e ls.sim).state.status ≠ Phase.completed := by
      rw [hs]; simp
    by_cases hbat : (simulate_step e ls.sim).state.battery < 10
    · left
      rw [wstick_abort_calls e ls hf, if_neg hnc, if_pos hbat]
      omega
    · right
      refine ⟨?_, Or.inr (Or.inl ⟨k + 1, hk1, ?_, ?_, ?_, ?_, ?_⟩)⟩
      · rw [wstick_sim e ls hf, if_neg hnc, if_neg hbat]; exact hcm'
      · rw [wstick_finished e ls hf, if_neg hnc]
      · rw [wstick_sim e ls hf, if_neg hnc, if_neg hbat]; exact hs
      · rw [wstick_sim e ls hf, if_neg hnc, if_neg hbat, hw, hC3]; push_cast; ring
      · rw [wstick_prev_wp e ls hf, if_pos hev, hw, hC3]; push_cast; ring
      · rw [wstick_wpIdx e ls hf, if_pos hev, hC5, hw, hC3, seqTo_succ]
  · -- landing with index frozen at N
    obtain ⟨hs2, hw⟩ := simulate_step_landing e ls.sim hD2
    have hev : ¬ ((simulate_step e ls.sim).state.current_waypoint ≠ ls.prev_wp ∧
        0 ≤ (simulate_step e ls.sim).state.current_waypoint) := by
      rw [hw, hD3, hD4]; simp
    rcases hs2 with hs | hs
    · -- still descending
      have hnc : (simulate_step e ls.sim).state.status ≠ Phase.completed := by
        rw [hs]; simp
      by_cases hbat : (simulate_step e ls.sim).state.battery < 10
      · left
        rw [wstick_abort_calls e ls hf, if_neg hnc, if_pos hbat]
        omega
      · right
        refine ⟨?_, Or.inr (Or.inr (Or.inr (Or.inl ⟨?_, ?_, ?_, ?_, ?_⟩)))⟩
        · rw [wstick_sim e ls hf, if_neg hnc, if_neg hbat]; exact hcm'
        · rw [wstick_finished e ls hf, if_neg hnc]
        · rw [wstick_sim e ls hf, if_neg hnc, if_neg hbat]; exact hs
        · rw [wstick_sim e ls hf, if_neg hnc, if_neg hbat, hw]; exact hD3
        · rw [wstick_prev_wp e ls hf, if_neg hev]; exact hD4
        · rw [wstick_wpIdx e ls hf, if_neg hev, hD5]; simp
    · -- touched down: completed, loop breaks before any battery check
      right
      refine ⟨?_, Or.inr (Or.inr (Or.inr (Or.inr ⟨?_, ?_, ?_⟩)))⟩
      · rw [wstick_sim e ls hf, if_pos hs]; exact hcm'
      · rw [wstick_finished e ls hf, if_pos hs]
      · rw [wstick_sim e ls hf, if_pos hs]; exact hs
      · rw [wstick_wpIdx e ls hf, if_neg hev, hD5]; simp
  · -- already finished: contradiction with the live-tick assumption
    rw [hE1] at hf
    cases hf

/-- The C1 invariant is preserved by any number of telemetry ticks. -/
theorem C1Inv_run (pb : DemoPlaybook) (envs : ℕ → Env) (n : ℕ) (ls : LoopState)
    (h : C1Inv pb ls) : C1Inv pb (wsRun envs n ls) := by
  induction n generalizing envs ls with
  | zero => exact h
  | succ n ih =>
    exact ih (fun i => envs (i + 1)) (wstick (envs 0) ls)
      (C1Inv_step pb (envs 0) ls h)

/-- Claim C1 (amended): starting a mission with N waypoints on a fresh
simulator and driving the telemetry loop until it finishes — with the
critical-battery abort never having fired — emits exactly N + 1
`waypoint_reached` events, with indices 0, 1, ..., N in that order (the
index-0 event fires when takeoff completes, and a final index-N event fires
on arrival at the last waypoint), after which the mission is in the terminal
phase `completed`. -/
theorem C1_waypoint_events (pb : DemoPlaybook) (envs : ℕ → Env) (n : ℕ)
    (hfin : (wsRun envs n (wsInit (start_mission pb initSim))).finished = true)
    (habort : (wsRun envs n (wsInit (start_mission pb initSim))).abort_calls = 0) :
    wpIdx (wsRun envs n (wsInit (start_mission pb initSim))).msgs =
      seqTo pb.waypoints.length ∧
    (wsRun envs n (wsInit (start_mission pb initSim))).sim.state.status =
      Phase.completed := by
  have h0 : C1Inv pb (wsInit (start_mission pb initSim)) := by
    right
    constructor
    · cases hw : pb.waypoints <;> simp [wsInit, start_mission, hw]
    · left
      refine ⟨rfl, ?_, ?_, rfl, rfl⟩
      · cases hw : pb.waypoints <;> simp [wsInit, start_mission, hw]
      · cases hw : pb.waypoints <;> simp [wsInit, start_mission, hw]
  have hrun := C1Inv_run pb envs n _ h0
  rcases hrun with h | ⟨-, hcase⟩
  · exact absurd habort h
  rcases hcase with ⟨h1, -⟩ | ⟨k, -, h1, -⟩ | ⟨k, -, h1, -⟩ | ⟨h1, -⟩ | ⟨-, h2, h3⟩
  · simp [h1] at hfin
  · simp [h1] at hfin
  · simp [h1] at hfin
  · simp [h1] at hfin
  · exact ⟨h3, h2⟩

/-- One-waypoint demo playbook for the C1 trace. -/
def pbC1 : DemoPlaybook :=
  { mission_id := "c1", mission_type := "patrol", description := "d",
    waypoints := [wp00], flight_parameters := none, max_duration_min := 30 }

/-- The freshly started C1 trace simulator. -/
noncomputable def simT0 : Simulator := start_mission pbC1 initSim

/-- C1 trace, after tick 1 (takeoff completes immediately: target altitude
0). -/
noncomputable def simT1 : Simulator :=
  { state :=
      { mission_id := some "c1", status := Phase.en_route, posAddr := 1,
        battery := 99.95, speed := 0, heading := 0, current_waypoint := 0,
        total_waypoints := 1, gps_satellites := 12, signal_strength := 100,
        temperature := 25, timestamp := 1 }
    heap := Function.update (fun _ => { lat := 0, lon := 0, alt := 0 }) 1
      { lat := 0, lon := 0, alt := 0 }
    nextAddr := 2
    current_mission := some pbC1
    takeoff_altitude := 0 }

/-- C1 trace, after tick 2 (waypoint 0 reached, no action, index advanced). -/
noncomputable def simT2 : Simulator :=
  { simT1 with state := { simT1.state with
      battery := 99.9, current_waypoint := 1, timestamp := 2 } }

/-- C1 trace, after tick 3 (all waypoints done: landing). -/
noncomputable def simT3 : Simulator :=
  { simT1 with state := { simT1.state with
      battery := 99.85, current_waypoint := 1, status := Phase.landing,
      timestamp := 3 } }

/-- C1 trace, after tick 4 (altitude 0: completed). -/
noncomputable def simT4 : Simulator :=
  { simT1 with state := { simT1.state with
      battery := 99.8, current_waypoint := 1, status := Phase.completed,
      timestamp := 4 } }

theorem stepT1 : simulate_step env0 simT0 = simT1 := by
  simp [simulate_step, simT0, simT1, start_mission, initSim, pbC1, wp00, env0,
    min_def, max_def, Function.update_same] <;> norm_num

theorem stepT2 : simulate_step env0 simT1 = simT2 := by
  simp [simulate_step, simT1, simT2, pbC1, wp00, env0, min_def, max_def,
    Function.update_same, dummyWaypoint, strTruthy, Real.sqrt_zero] <;> norm_num

theorem stepT3 : simulate_step env0 simT2 = simT3 := by
  simp [simulate_step, simT1, simT2, simT3, pbC1, wp00, env0, min_def, max_def,
    Function.update_same] <;> norm_num

theorem stepT4 : simulate_step env0 simT3 = simT4 := by
  simp [simulate_step, simT1, simT3, simT4, pbC1, wp00, env0, min_def, max_def,
    Function.update_same] <;> norm_num

/-- The loop state after tick 1 of the C1 trace. -/
noncomputable def lsT1 : LoopState :=
  { sim := simT1, prev_wp := 0, prev_status := some Phase.en_route,
    msgs := [Msg.connected, Msg.waypoint_reached 0 1,
      Msg.status_change none Phase.en_route, Msg.position_update],
    abort_calls := 0, finished := false }

/-- The loop state after tick 2 of the C1 trace. -/
noncomputable def lsT2 : LoopState :=
  { sim := simT2, prev_wp := 1, prev_status := some Phase.en_route,
    msgs := lsT1.msgs ++ [Msg.waypoint_reached 1 1, Msg.position_update],
    abort_calls := 0, finished := false }

/-- The loop state after tick 3 of the C1 trace. -/
noncomputable def lsT3 : LoopState :=
  { sim := simT3, prev_wp := 1, prev_status := some Phase.landing,
    msgs := lsT2.msgs ++ [Msg.status_change (some Phase.en_route) Phase.landing,
      Msg.position_update],
    abort_calls := 0, finished := false }

/-- The loop state after tick 4 of the C1 trace. -/
noncomputable def lsT4 : LoopState :=
  { sim := simT4, prev_wp := 1, prev_status := some Phase.completed,
    msgs := lsT3.msgs ++ [Msg.status_change (some Phase.landing) Phase.completed,
      Msg.position_update, Msg.mission_complete],
    abort_calls := 0, finished := true }

theorem tickT1 : wstick env0 (wsInit simT0) = lsT1 := by
  have h : (wsInit simT0).sim = simT0 := rfl
  simp only [wstick, wsInit, h, stepT1, get_state]
  simp [simT1, lsT1] <;> norm_num

theorem tickT2 : wstick env0 lsT1 = lsT2 := by
  have h : lsT1.sim = simT1 := rfl
  simp only [wstick, h, stepT2, get_state]
  simp [lsT1, lsT2, simT1, simT2] <;> norm_num

theorem tickT3 : wstick env0 lsT2 = lsT3 := by
  have h : lsT2.sim = simT2 := rfl
  simp only [wstick, h, stepT3, get_state]
  simp [lsT1, lsT2, lsT3, simT1, simT2, simT3] <;> norm_num

theorem tickT4 : wstick env0 lsT3 = lsT4 := by
  have h : lsT3.sim = simT3 := rfl
  simp only [wstick, h, stepT4, get_state]
  simp [lsT1, lsT2, lsT3, lsT4, simT1, simT3, simT4] <;> norm_num

/-- The concrete four-tick run of the C1 trace: takeoff completes on tick 1
(index-0 event), waypoint 0 is reached on tick 2 (index-1 event), tick 3
flips to landing, tick 4 completes. -/
theorem wsRunC1_facts :
    (wsRun (fun _ => env0) 4 (wsInit (start_mission pbC1 initSim))).finished = true ∧
    (wsRun (fun _ => env0) 4 (wsInit (start_mission pbC1 initSim))).abort_calls = 0 ∧
    wpIdx (wsRun (fun _ => env0) 4 (wsInit (start_mission pbC1 initSim))).msgs
      = [0, 1] := by
  have hrun : wsRun (fun _ => env0) 4 (wsInit (start_mission pbC1 initSim)) = lsT4 := by
    show wstick env0 (wstick env0 (wstick env0 (wstick env0 (wsInit simT0)))) = lsT4
    rw [tickT1, tickT2, tickT3, tickT4]
  rw [hrun]
  refine ⟨rfl, rfl, ?_⟩
  simp [lsT4, lsT3, lsT2, lsT1, wpIdx]

/-- Counterexample to claim C1 as stated: driving a 1-waypoint mission to
completion emits two `waypoint_reached` events with indices [0, 1] — not
exactly N = 1 events with indices [0] (index 0 up to N - 1). -/
theorem C1_counterexample :
    (wsRun (fun _ => env0) 4 (wsInit (start_mission pbC1 initSim))).finished = true ∧
    pbC1.waypoints.length = 1 ∧
    wpIdx (wsRun (fun _ => env0) 4 (wsInit (start_mission pbC1 initSim))).msgs
      = [0, 1] ∧
    ([0, 1] : List ℤ) ≠ [0] :=
  ⟨wsRunC1_facts.1, rfl, wsRunC1_facts.2.2, by decide⟩

/-- Witness for claim C1 (amended) on the concrete 1-waypoint trace. -/
theorem C1_waypoint_events_witness :
    wpIdx (wsRun (fun _ => env0) 4 (wsInit (start_mission pbC1 initSim))).msgs
      = seqTo pbC1.waypoints.length ∧
    (wsRun (fun _ => env0) 4
      (wsInit (start_mission pbC1 initSim))).sim.state.status = Phase.completed :=
  C1_waypoint_events pbC1 (fun _ => env0) 4 wsRunC1_facts.1 wsRunC1_facts.2.1
